import Mathlib

/-!
Verification development for the study-buddy chat relay.

Backend: shallow embedding of the `POST /api/chat` handler in
`src/backend/server.js`.  Client: shallow embedding of the `handleSend`
submission logic of the `ChatInterface` component.  All definitions are
translated from the source; machine effects (the wall clock, the network,
the external provider) are passed in explicitly.
-/

namespace StudyBuddy

/-! ### Backend: the chat proxy handler -/

/-- One JSON value that can occupy the `message` field of the request body.
`undef` models an absent field (JavaScript `undefined`). -/
inductive JsValue where
  | undef
  | nullv
  | boolv (b : Bool)
  | numv (n : Int)
  | strv (s : String)
deriving DecidableEq

/-- JavaScript truthiness of a `JsValue`, as tested by `!message`. -/
def JsValue.truthy : JsValue → Bool
  | .undef => false
  | .nullv => false
  | .boolv b => b
  | .numv n => n != 0
  | .strv s => !s.isEmpty

/-- The test `typeof message === 'string'`. -/
def JsValue.isString : JsValue → Bool
  | .strv _ => true
  | _ => false

/-- Reads the value as a string; only reached after the handler has
validated that the value is a string. -/
def JsValue.asString : JsValue → String
  | .strv s => s
  | _ => ""

/-- The request body of `POST /api/chat`: `const { message } = req.body`. -/
structure ChatRequestBody where
  message : JsValue
deriving DecidableEq

/-- The JSON body sent back by the handler: either `{ response: ... }` or
`{ error: ... }`, exactly the two object shapes the source constructs. -/
inductive ApiBody where
  | ok (response : String)
  | err (error : String)
deriving DecidableEq

/-- Whether the body carries an `error` field. -/
def ApiBody.isErr : ApiBody → Bool
  | .err _ => true
  | _ => false

/-- Whole observable outcome of one handler run: the HTTP status, the JSON
body, and the list of prompts the external provider was invoked with,
in invocation order. -/
structure ChatOutcome where
  status : Nat
  resBody : ApiBody
  prompts : List String
deriving DecidableEq

/-- Truthiness of `process.env.GEMINI_API_KEY` (`none` when the variable is
unset; the empty string is falsy as well). -/
def envTruthy : Option String → Bool
  | none => false
  | some s => !s.isEmpty

/-- Embedding of the `app.post('/api/chat')` handler in
`src/backend/server.js`.  `apiKey` is `process.env.GEMINI_API_KEY`;
`provider` models `model.generateContent` followed by
`result.response.text()`, with `.error` standing for a thrown exception,
which the source catches and turns into a generic 500. -/
def handleChat (apiKey : Option String) (provider : String → Except String String)
    (body : ChatRequestBody) : ChatOutcome :=
  let message := body.message
  if !message.truthy || !message.isString then
    { status := 400, resBody := .err "Message is required and must be a string", prompts := [] }
  else if !(envTruthy apiKey) then
    { status := 500, resBody := .err "Gemini API key not configured", prompts := [] }
  else
    match provider message.asString with
    | .ok t => { status := 200, resBody := .ok t, prompts := [message.asString] }
    | .error _ =>
        { status := 500, resBody := .err "Internal server error", prompts := [message.asString] }

/-! ### Client: the chat session state and `handleSend` -/

/-- `message.sender`, one of `'user'` or `'bot'`. -/
inductive Sender where
  | user
  | bot
deriving DecidableEq

/-- One chat `Message` of the client.  The source sets `id` to
`Date.now().toString()` (respectively `(Date.now() + 1).toString()`), so
the id is the decimal string of a clock reading. -/
structure Message where
  id : String
  text : String
  sender : Sender
  timestamp : Nat
deriving DecidableEq

/-- The component state: `messages`, `input` and `loading`
(`useState` initial values `[]`, `''`, `false`). -/
structure SessionState where
  messages : List Message
  input : String
  loading : Bool
deriving DecidableEq

/-- The state right after mount. -/
def initialState : SessionState :=
  { messages := [], input := "", loading := false }

/-- The JSON data of a resolved 2xx reply as the client sees it
(`res.data`): the backend contract names the field `response`, while the
client reads the field `reply`; both are carried so that the mismatch is
expressible.  `none` models an absent field. -/
structure ClientPayload where
  response : Option String
  reply : Option String
deriving DecidableEq

/-- Outcome of the awaited `axios.post`: a resolved 2xx reply with its JSON
data, or a rejection (transport error or non-2xx status). -/
inductive NetOutcome where
  | success (data : ClientPayload)
  | failure
deriving DecidableEq

/-- The placeholder text used when the payload lacks content. -/
def noResponseText : String := "No response received."

/-- The fixed local error text appended when the request fails. -/
def networkErrorText : String :=
  "Error: Could not get response from server. Check your backend connection."

/-- Models `res.data.reply || "No response received."` for a
string-or-absent field: the empty string is falsy, so it also falls
back to the placeholder. -/
def replyOrPlaceholder : Option String → String
  | some s => if s.isEmpty then noResponseText else s
  | none => noResponseText

/-- JavaScript `String.prototype.trim`: strips leading and trailing
whitespace characters. -/
def jsTrim (s : String) : String :=
  (((s.data.dropWhile Char.isWhitespace).reverse.dropWhile
      Char.isWhitespace).reverse).asString

/-- First half of `handleSend`, up to the `axios.post` call: the guard
`if (!input.trim() || loading) return;`, then appending the user message,
clearing the input and setting `loading`.  `now` is the `Date.now()`
reading.  The second component is the `message` field of the request that
was issued, or `none` when no network call is made. -/
def submitStart (st : SessionState) (now : Nat) : SessionState × Option String :=
  if (jsTrim st.input).isEmpty || st.loading then (st, none)
  else
    let userMessage : Message :=
      { id := Nat.repr now, text := st.input, sender := .user, timestamp := now }
    ({ messages := st.messages ++ [userMessage], input := "", loading := true },
      some st.input)

/-- Second half of `handleSend`: the continuation that runs when the
awaited call resolves.  On success it appends the bot message built from
`res.data.reply` (with the placeholder fallback); on rejection the catch
block appends the fixed error message; the finally block clears
`loading`.  `now` is the `Date.now()` reading at resolution time. -/
def resolveNet (st : SessionState) (outcome : NetOutcome) (now : Nat) : SessionState :=
  match outcome with
  | .success data =>
      let botMessage : Message :=
        { id := Nat.repr (now + 1), text := replyOrPlaceholder data.reply,
          sender := .bot, timestamp := now }
      { st with messages := st.messages ++ [botMessage], loading := false }
  | .failure =>
      let errorMessage : Message :=
        { id := Nat.repr (now + 1), text := networkErrorText,
          sender := .bot, timestamp := now }
      { st with messages := st.messages ++ [errorMessage], loading := false }

/-- One whole `handleSend` run, submission through resolution.  When the
guard takes the early return, no network call happens and the state is
unchanged; otherwise the request is issued and `outcome` is how it
resolves. -/
def handleSend (st : SessionState) (tSubmit : Nat) (outcome : NetOutcome)
    (tResolve : Nat) : SessionState :=
  match submitStart st tSubmit with
  | (st', none) => st'
  | (st', some _) => resolveNet st' outcome tResolve

/-! ### Sequenced turns

One `Turn` bundles the inputs of one complete submission/resolution cycle:
the text in the input box when the user presses send, the clock reading at
submission, the network outcome, and the clock reading at resolution. -/

structure Turn where
  text : String
  tSubmit : Nat
  outcome : NetOutcome
  tResolve : Nat
deriving DecidableEq

/-- Runs a sequence of complete turns: each turn types its text into the
input box and runs `handleSend` to completion before the next turn
starts.  This is exactly the sequencing hypothesis of the ordering
guarantee: each submission happens only after the prior reply landed. -/
def runTurns : SessionState → List Turn → SessionState
  | st, [] => st
  | st, t :: rest =>
      runTurns (handleSend { st with input := t.text } t.tSubmit t.outcome t.tResolve) rest

/-- The user message a guard-passing submission appends. -/
def userMsgOf (text : String) (t : Nat) : Message :=
  { id := Nat.repr t, text := text, sender := .user, timestamp := t }

/-- The text of the bot message appended at resolution. -/
def botTextOf : NetOutcome → String
  | .success data => replyOrPlaceholder data.reply
  | .failure => networkErrorText

/-- The bot message appended at resolution. -/
def botMsgOf (out : NetOutcome) (t : Nat) : Message :=
  { id := Nat.repr (t + 1), text := botTextOf out, sender := .bot, timestamp := t }

/-- The explicit message list a sequence of complete turns produces. -/
def turnMessages : List Turn → List Message
  | [] => []
  | t :: rest => userMsgOf t.text t.tSubmit :: botMsgOf t.outcome t.tResolve :: turnMessages rest

/-- The strictly alternating sender pattern: one user/bot pair per turn. -/
def senderPattern : List Turn → List Sender
  | [] => []
  | _ :: rest => Sender.user :: Sender.bot :: senderPattern rest

/-- The clock readings that become message ids, in creation order: the
submission reading for the user message, the resolution reading plus one
for the bot message. -/
def turnIds : List Turn → List Nat
  | [] => []
  | t :: rest => t.tSubmit :: (t.tResolve + 1) :: turnIds rest

/-- Well-spaced clock readings: the clock never runs backwards inside a
turn, and between one turn's resolution and the next turn's submission it
advances by at least 2 (so the next `Date.now()` cannot collide with the
previous bot id, which is the resolution reading plus one). -/
def clocksOk : Nat → List Turn → Bool
  | _, [] => true
  | lo, t :: rest => (lo ≤ t.tSubmit && t.tSubmit ≤ t.tResolve) && clocksOk (t.tResolve + 2) rest

/-! ### Decimal representations

Message ids are produced by `toString` on clock readings, i.e. by
`Nat.repr`.  To relate distinctness of ids to distinctness of the
underlying readings we give `Nat.toDigits 10` a closed form and prove it
injective. -/

/-- Big-endian decimal digit characters of `n`: the closed form of
`Nat.toDigits 10 n`. -/
def decChars (n : Nat) : List Char :=
  if _h : n < 10 then [Nat.digitChar n]
  else decChars (n / 10) ++ [Nat.digitChar (n % 10)]
termination_by n
decreasing_by omega

lemma toDigitsCore_eq_decChars (fuel : Nat) :
    ∀ (n : Nat) (ds : List Char), n < fuel →
      Nat.toDigitsCore 10 fuel n ds = decChars n ++ ds := by
  induction fuel with
  | zero => omega
  | succ fuel ih =>
      intro n ds hlt
      rw [Nat.toDigitsCore]
      by_cases h10 : n / 10 = 0
      · have hn : n < 10 := by omega
        rw [if_pos h10, decChars, dif_pos hn, Nat.mod_eq_of_lt hn]
        rfl
      · have hdiv : n / 10 < fuel := by omega
        rw [if_neg h10, ih _ _ hdiv]
        conv_rhs => rw [decChars]
        rw [dif_neg (by omega : ¬ n < 10)]
        simp

lemma toDigits_eq_decChars (n : Nat) : Nat.toDigits 10 n = decChars n := by
  rw [Nat.toDigits, toDigitsCore_eq_decChars (n + 1) n [] (Nat.lt_succ_self n),
    List.append_nil]

lemma digitChar_inj_lt : ∀ a < 10, ∀ b < 10,
    Nat.digitChar a = Nat.digitChar b → a = b := by decide

lemma decChars_ne_nil (n : Nat) : decChars n ≠ [] := by
  rw [decChars]
  split <;> simp

lemma decChars_concat (n : Nat) :
    decChars n = (if n < 10 then [] else decChars (n / 10)) ++ [Nat.digitChar (n % 10)] := by
  rw [decChars]
  by_cases h : n < 10
  · rw [dif_pos h, if_pos h, Nat.mod_eq_of_lt h]
    rfl
  · rw [dif_neg h, if_neg h]

lemma decChars_injective : ∀ m n : Nat, decChars m = decChars n → m = n := by
  intro m
  induction m using Nat.strong_induction_on with
  | _ m ih =>
    intro n h
    rw [decChars_concat m, decChars_concat n] at h
    have h2 := congrArg List.reverse h
    simp only [List.reverse_append, List.reverse_cons, List.reverse_nil,
      List.nil_append, List.cons_append] at h2
    injection h2 with hhd htl
    have hmod : m % 10 = n % 10 :=
      digitChar_inj_lt (m % 10) (Nat.mod_lt m (by omega)) (n % 10)
        (Nat.mod_lt n (by omega)) hhd
    rw [List.reverse_inj] at htl
    by_cases hm : m < 10 <;> by_cases hn : n < 10
    · omega
    · rw [if_pos hm, if_neg hn] at htl
      exact absurd htl.symm (decChars_ne_nil (n / 10))
    · rw [if_neg hm, if_pos hn] at htl
      exact absurd htl (decChars_ne_nil (m / 10))
    · rw [if_neg hm, if_neg hn] at htl
      have hdiv : m / 10 = n / 10 := ih (m / 10) (by omega) (n / 10) htl
      omega

lemma natRepr_injective {m n : Nat} (h : Nat.repr m = Nat.repr n) : m = n := by
  unfold Nat.repr at h
  rw [List.asString_inj, toDigits_eq_decChars, toDigits_eq_decChars] at h
  exact decChars_injective m n h

/-! ### Backend claims -/

/-- Claim C3, counterexample: the body `{message: ""}` carries a
`message` field that is present and is a string, yet the handler answers
400 with an `error` field, because the validation tests JavaScript
truthiness (`!message`) and the empty string is falsy. -/
theorem c3_empty_string_counterexample :
    JsValue.isString (.strv "") = true
    ∧ (handleChat (some "key") (fun s => .ok s) { message := .strv "" }).status = 400
    ∧ (handleChat (some "key") (fun s => .ok s)
        { message := .strv "" }).resBody.isErr = true := by
  refine ⟨rfl, ?_, ?_⟩ <;> rfl

/-- Claim C3, amended: `handleChat` answers 400 with an `error` field
exactly when `body.message` fails the check `message && typeof message ===
'string'`, i.e. when the field is absent, is not a string, or is the empty
string; every non-empty string passes validation and no other branch
produces a 400. -/
theorem c3_validation_amended (apiKey : Option String)
    (provider : String → Except String String) (body : ChatRequestBody) :
    ((handleChat apiKey provider body).status = 400
        ∧ (handleChat apiKey provider body).resBody.isErr = true)
      ↔ (body.message.truthy && body.message.isString) = false := by
  by_cases h1 : body.message.truthy <;> by_cases h2 : body.message.isString
  · simp only [handleChat, h1, h2, Bool.not_true, Bool.or_self, Bool.false_or, if_false]
    by_cases h3 : envTruthy apiKey
    · simp only [h3, Bool.not_true, if_false]
      cases hp : provider body.message.asString with
      | ok t => simp [hp]
      | error e => simp [hp, ApiBody.isErr]
    · simp only [Bool.not_eq_true] at h3
      simp [h3]
  all_goals simp [handleChat, h1, h2, ApiBody.isErr]

/-- Claim C4: when the message passes validation but the provider
credential is absent from the environment, the handler answers 500 with an
`error` field, whatever the message says, and the provider is never
invoked (the recorded prompt list is empty). -/
theorem c4_missing_key (provider : String → Except String String)
    (body : ChatRequestBody)
    (h : (body.message.truthy && body.message.isString) = true) :
    handleChat none provider body
      = { status := 500, resBody := .err "Gemini API key not configured",
          prompts := [] } := by
  obtain ⟨h1, h2⟩ := Bool.and_eq_true_iff.mp h
  simp [handleChat, h1, h2, envTruthy]

/-- Claim C4, witness at the message `"What is Git?"`. -/
theorem c4_missing_key_witness :
    ((JsValue.strv "What is Git?").truthy
        && (JsValue.strv "What is Git?").isString) = true
    ∧ handleChat none (fun s => .ok s) { message := .strv "What is Git?" }
        = { status := 500, resBody := .err "Gemini API key not configured",
            prompts := [] } :=
  ⟨by decide, c4_missing_key (fun s => .ok s) { message := .strv "What is Git?" } (by decide)⟩

/-- Claim C5: with a valid string message and the credential configured,
the handler invokes the provider exactly once, with the message itself as
the entire prompt, and when the provider yields `t` it answers
200 with body `{response: t}`. -/
theorem c5_success_roundtrip (apiKey : Option String)
    (provider : String → Except String String) (s t : String)
    (hval : ((JsValue.strv s).truthy && (JsValue.strv s).isString) = true)
    (hkey : envTruthy apiKey = true)
    (hprov : provider s = .ok t) :
    handleChat apiKey provider { message := .strv s }
      = { status := 200, resBody := .ok t, prompts := [s] } := by
  obtain ⟨h1, h2⟩ := Bool.and_eq_true_iff.mp hval
  simp [handleChat, h1, h2, hkey, JsValue.asString, hprov]

/-- Claim C5, witness: the provider answers `"Hello"`. -/
theorem c5_success_roundtrip_witness :
    (((JsValue.strv "Hi").truthy && (JsValue.strv "Hi").isString) = true
      ∧ envTruthy (some "key") = true
      ∧ (fun (_ : String) => (.ok "Hello" : Except String String)) "Hi" = .ok "Hello")
    ∧ handleChat (some "key") (fun _ => .ok "Hello") { message := .strv "Hi" }
        = { status := 200, resBody := .ok "Hello", prompts := ["Hi"] } :=
  ⟨⟨by decide, by decide, rfl⟩,
    c5_success_roundtrip (some "key") (fun _ => .ok "Hello") "Hi" "Hello"
      (by decide) (by decide) rfl⟩

/-- Claim C6: when the provider call throws, the handler catches the
exception and answers 500 with the fixed generic body
`{error: "Internal server error"}`; the outcome is a constant that
does not depend on the thrown detail `e`, so the detail never reaches the
response, and `handleChat` is a total function, so nothing propagates. -/
theorem c6_provider_error_masked (apiKey : Option String)
    (provider : String → Except String String) (s e : String)
    (hval : ((JsValue.strv s).truthy && (JsValue.strv s).isString) = true)
    (hkey : envTruthy apiKey = true)
    (hprov : provider s = .error e) :
    handleChat apiKey provider { message := .strv s }
      = { status := 500, resBody := .err "Internal server error", prompts := [s] } := by
  obtain ⟨h1, h2⟩ := Bool.and_eq_true_iff.mp hval
  simp [handleChat, h1, h2, hkey, JsValue.asString, hprov]

/-- Claim C6, witness: the provider throws `"quota exceeded"`. -/
theorem c6_provider_error_masked_witness :
    (((JsValue.strv "Hi").truthy && (JsValue.strv "Hi").isString) = true
      ∧ envTruthy (some "key") = true
      ∧ (fun (_ : String) => (.error "quota exceeded" : Except String String)) "Hi"
          = .error "quota exceeded")
    ∧ handleChat (some "key") (fun _ => .error "quota exceeded") { message := .strv "Hi" }
        = { status := 500, resBody := .err "Internal server error", prompts := ["Hi"] } :=
  ⟨⟨by decide, by decide, rfl⟩,
    c6_provider_error_masked (some "key") (fun _ => .error "quota exceeded")
      "Hi" "quota exceeded" (by decide) (by decide) rfl⟩

/-- Claim C10: validation runs before the credential check, so a body
whose `message` is not a string is answered 400 with an `error` field for
every credential configuration, the missing one included; the 500
configuration error is reachable only by requests that pass validation. -/
theorem c10_validation_precedence (apiKey : Option String)
    (provider : String → Except String String) (body : ChatRequestBody)
    (h : body.message.isString = false) :
    (handleChat apiKey provider body).status = 400
    ∧ (handleChat apiKey provider body).resBody.isErr = true := by
  simp [handleChat, h, ApiBody.isErr]

/-- Claim C10, witness: an absent `message` together with a missing
credential still yields the 400 validation answer. -/
theorem c10_validation_precedence_witness :
    (JsValue.undef.isString = false)
    ∧ (handleChat none (fun s => .ok s) { message := .undef }).status = 400
    ∧ (handleChat none (fun s => .ok s) { message := .undef }).resBody.isErr = true :=
  ⟨by decide, c10_validation_precedence none (fun s => .ok s) { message := .undef } (by decide)⟩

/-! ### Client claims -/

/-- Claim C1, divergence witnessed on the code: the backend's 200 payload
for the prompt `"hi"` is `{response: "Hello"}` (no `reply` field),
yet the submit handler appends the placeholder text, because it reads
`res.data.reply` while the backend writes `res.data.response`.  The bot
text the claim promises, `"Hello"`, is never what gets appended. -/
theorem c1_reply_field_mismatch :
    (handleSend { messages := [], input := "hi", loading := false } 1
        (.success { response := some "Hello", reply := none }) 2).messages.map Message.text
      = ["hi", noResponseText]
    ∧ noResponseText ≠ "Hello" := by
  constructor
  · rfl
  · decide

/-- Claim C2: when the input is empty or whitespace-only, or a request is
already in flight, the submit handler is a no-op: the state (messages,
`loading`, input buffer) is untouched and no network request is issued
(`submitStart` returns `none` for the request), whatever the outcome and
clock readings would have been. -/
theorem c2_submit_noop (st : SessionState) (now : Nat)
    (h : jsTrim st.input = "" ∨ st.loading = true) :
    submitStart st now = (st, none)
    ∧ ∀ (out : NetOutcome) (tResolve : Nat), handleSend st now out tResolve = st := by
  have hc : ((jsTrim st.input).isEmpty || st.loading) = true := by
    rcases h with h | h
    · rw [h]
      rfl
    · simp [h]
  constructor
  · simp [submitStart, hc]
  · intro out tResolve
    simp [handleSend, submitStart, hc]

/-- Claim C2, witness: whitespace-only input `"  "` with no request in
flight. -/
theorem c2_submit_noop_witness :
    (jsTrim "  " = ""
        ∨ ({ messages := [], input := "  ", loading := false } : SessionState).loading = true)
    ∧ (submitStart { messages := [], input := "  ", loading := false } 7
        = ({ messages := [], input := "  ", loading := false }, none)
      ∧ ∀ (out : NetOutcome) (tResolve : Nat),
          handleSend { messages := [], input := "  ", loading := false } 7 out tResolve
            = { messages := [], input := "  ", loading := false }) :=
  ⟨Or.inl (by decide),
    c2_submit_noop { messages := [], input := "  ", loading := false } 7 (Or.inl (by decide))⟩

/-- Unfolds a guard-passing `handleSend` run into the explicit state it
produces: the user message, then the bot message for the outcome, with the
input cleared and `loading` back to `false`. -/
lemma handleSend_eq_of_pass (st : SessionState) (tSubmit tResolve : Nat)
    (out : NetOutcome) (hld : st.loading = false) (hin : jsTrim st.input ≠ "") :
    handleSend st tSubmit out tResolve
      = { messages := st.messages
            ++ [userMsgOf st.input tSubmit, botMsgOf out tResolve],
          input := "", loading := false } := by
  have hie : (jsTrim st.input).isEmpty = false := by
    cases hh : (jsTrim st.input).isEmpty
    · rfl
    · exact absurd ((String.isEmpty_iff _).mp hh) hin
  cases out <;>
    simp [handleSend, submitStart, resolveNet, hie, hld, userMsgOf, botMsgOf, botTextOf]

/-- Claim C9: when the issued request fails (the promise rejects: transport
error or non-2xx status), the submission appends the user message and then
exactly one bot message whose text is the fixed local error string — never
raw error detail — and when a 2xx payload is malformed (no usable `reply`
content) the appended bot text is the fixed placeholder; in every case the
prior message sequence is preserved unchanged at the front, the session
ends with `loading = false`, and `handleSend` is total, so nothing throws
past the handler. -/
theorem c9_failure_recovery (st : SessionState) (tSubmit tResolve : Nat)
    (hld : st.loading = false) (hin : jsTrim st.input ≠ "") :
    handleSend st tSubmit .failure tResolve
      = { messages := st.messages
            ++ [userMsgOf st.input tSubmit,
                { id := Nat.repr (tResolve + 1), text := networkErrorText,
                  sender := .bot, timestamp := tResolve }],
          input := "", loading := false }
    ∧ ∀ r : Option String,
        handleSend st tSubmit (.success { response := r, reply := none }) tResolve
          = { messages := st.messages
                ++ [userMsgOf st.input tSubmit,
                    { id := Nat.repr (tResolve + 1), text := noResponseText,
                      sender := .bot, timestamp := tResolve }],
              input := "", loading := false } := by
  constructor
  · rw [handleSend_eq_of_pass st tSubmit tResolve .failure hld hin]
    rfl
  · intro r
    rw [handleSend_eq_of_pass st tSubmit tResolve
      (.success { response := r, reply := none }) hld hin]
    rfl

/-- Claim C9, witness: a failing request from a one-message history. -/
theorem c9_failure_recovery_witness :
    (({ messages := [userMsgOf "old" 0], input := "hi", loading := false }
        : SessionState).loading = false
      ∧ jsTrim ({ messages := [userMsgOf "old" 0], input := "hi", loading := false }
        : SessionState).input ≠ "")
    ∧ handleSend { messages := [userMsgOf "old" 0], input := "hi", loading := false }
        3 .failure 4
        = { messages := [userMsgOf "old" 0]
              ++ [userMsgOf "hi" 3,
                  { id := Nat.repr 5, text := networkErrorText,
                    sender := .bot, timestamp := 4 }],
            input := "", loading := false } :=
  ⟨⟨by decide, by decide⟩,
    (c9_failure_recovery { messages := [userMsgOf "old" 0], input := "hi", loading := false }
      3 4 (by decide) (by decide)).1⟩

/-! ### Sequenced-turn claims -/

/-- The texts a sequence of complete turns appends, in order: each turn
contributes its submitted text and then the bot text its outcome
produces. -/
def textPattern : List Turn → List String
  | [] => []
  | t :: rest => t.text :: botTextOf t.outcome :: textPattern rest

/-- Running complete turns from a non-`loading` state appends exactly the
explicit per-turn user/bot message pairs and ends non-`loading`. -/
lemma runTurns_spec (turns : List Turn) : ∀ st : SessionState,
    st.loading = false → (∀ t ∈ turns, jsTrim t.text ≠ "") →
    (runTurns st turns).messages = st.messages ++ turnMessages turns
    ∧ (runTurns st turns).loading = false := by
  induction turns with
  | nil =>
      intro st hld _
      simp [runTurns, turnMessages, hld]
  | cons t rest ih =>
      intro st hld hne
      rw [runTurns]
      rw [handleSend_eq_of_pass { st with input := t.text } t.tSubmit t.tResolve
        t.outcome hld (hne t (List.mem_cons_self t rest))]
      obtain ⟨hm, hl⟩ := ih
        { messages := st.messages
            ++ [userMsgOf ({ st with input := t.text } : SessionState).input t.tSubmit,
                botMsgOf t.outcome t.tResolve],
          input := "", loading := false }
        rfl (fun u hu => hne u (List.mem_cons_of_mem t hu))
      refine ⟨?_, hl⟩
      rw [hm]
      simp [turnMessages]

lemma turnMessages_senders (turns : List Turn) :
    (turnMessages turns).map Message.sender = senderPattern turns := by
  induction turns with
  | nil => rfl
  | cons t rest ih => simp [turnMessages, senderPattern, userMsgOf, botMsgOf, ih]

lemma turnMessages_texts (turns : List Turn) :
    (turnMessages turns).map Message.text = textPattern turns := by
  induction turns with
  | nil => rfl
  | cons t rest ih => simp [turnMessages, textPattern, userMsgOf, botMsgOf, ih]

lemma turnMessages_ids (turns : List Turn) :
    (turnMessages turns).map Message.id = (turnIds turns).map Nat.repr := by
  induction turns with
  | nil => rfl
  | cons t rest ih => simp [turnMessages, turnIds, userMsgOf, botMsgOf, ih]

/-- Claim C7: when every submission happens only after the previous
reply landed (which is what running whole turns in sequence expresses),
the resulting log is exactly one user/bot pair per turn, in submission
order: the senders strictly alternate user-then-bot, and the texts are
each turn's submitted text followed by that turn's reply text. -/
theorem c7_turns_alternate (turns : List Turn)
    (hne : ∀ t ∈ turns, jsTrim t.text ≠ "") :
    (runTurns initialState turns).messages = turnMessages turns
    ∧ (runTurns initialState turns).messages.map Message.sender = senderPattern turns
    ∧ (runTurns initialState turns).messages.map Message.text = textPattern turns := by
  obtain ⟨hm, _⟩ := runTurns_spec turns initialState rfl hne
  have hm' : (runTurns initialState turns).messages = turnMessages turns := by
    rw [hm]
    simp [initialState]
  exact ⟨hm', by rw [hm', turnMessages_senders], by rw [hm', turnMessages_texts]⟩

/-- Two complete turns used as concrete witnesses. -/
def demoTurns : List Turn :=
  [{ text := "hi", tSubmit := 1, outcome := .failure, tResolve := 2 },
   { text := "there", tSubmit := 10,
     outcome := .success { response := none, reply := some "yo" }, tResolve := 11 }]

/-- Claim C7, witness on two concrete turns. -/
theorem c7_turns_alternate_witness :
    (∀ t ∈ demoTurns, jsTrim t.text ≠ "")
    ∧ ((runTurns initialState demoTurns).messages = turnMessages demoTurns
      ∧ (runTurns initialState demoTurns).messages.map Message.sender
          = senderPattern demoTurns
      ∧ (runTurns initialState demoTurns).messages.map Message.text
          = textPattern demoTurns) :=
  ⟨by decide, c7_turns_alternate demoTurns (by decide)⟩

/-- Claim C8, counterexample: two back-to-back turns on a non-decreasing
millisecond clock (`Date.now()` readings 5, 5, 6, 6).  The first turn's
bot id is the resolution reading plus one, `"6"`; the second turn's user
id is the next submission reading, also `"6"`.  The reachable state's ids
are not pairwise distinct, refuting the claim as stated. -/
theorem c8_duplicate_id_counterexample :
    ((runTurns initialState
        [{ text := "hi", tSubmit := 5, outcome := .failure, tResolve := 5 },
         { text := "yo", tSubmit := 6, outcome := .failure, tResolve := 6 }]).messages.map
          Message.id)
      = ["5", "6", "6", "7"]
    ∧ ¬ (["5", "6", "6", "7"] : List String).Nodup := by
  exact ⟨rfl, by decide⟩

lemma turnIds_chain (turns : List Turn) : ∀ lo : Nat, clocksOk lo turns = true →
    List.Chain' (· < ·) (turnIds turns) ∧ ∀ x ∈ turnIds turns, lo ≤ x := by
  induction turns with
  | nil =>
      intro lo _
      exact ⟨List.chain'_nil, by simp [turnIds]⟩
  | cons t rest ih =>
      intro lo h
      rw [clocksOk] at h
      simp only [Bool.and_eq_true, decide_eq_true_eq] at h
      obtain ⟨⟨ha, hb⟩, hc⟩ := h
      obtain ⟨hchain, hbound⟩ := ih (t.tResolve + 2) hc
      rw [turnIds]
      constructor
      · rw [List.chain'_cons, List.chain'_cons']
        refine ⟨by omega, fun y hy => ?_, hchain⟩
        have : t.tResolve + 2 ≤ y := hbound y (List.mem_of_mem_head? hy)
        omega
      · intro x hx
        rcases List.mem_cons.mp hx with rfl | hx
        · exact ha
        rcases List.mem_cons.mp hx with rfl | hx
        · omega
        · have := hbound x hx
          omega

/-- Claim C8, amended: when the clock readings are well spaced — the clock
does not run backwards within a turn and advances by at least 2 between a
turn's resolution and the next submission — the ids of the resulting log
are the decimal strings of a strictly increasing sequence of numbers, and
in particular are pairwise distinct.  (As the counterexample shows, with a
merely non-decreasing clock two adjacent readings make the previous bot id
collide with the next user id, so the spacing hypothesis is needed; and
monotonicity holds of the encoded numbers, the order the generator
`Date.now()` produces them in.) -/
theorem c8_ids_monotone_amended (turns : List Turn)
    (hne : ∀ t ∈ turns, jsTrim t.text ≠ "")
    (hclk : clocksOk 0 turns = true) :
    (runTurns initialState turns).messages.map Message.id
        = (turnIds turns).map Nat.repr
    ∧ List.Pairwise (· < ·) (turnIds turns)
    ∧ ((runTurns initialState turns).messages.map Message.id).Nodup := by
  obtain ⟨hm, _⟩ := runTurns_spec turns initialState rfl hne
  have hids : (runTurns initialState turns).messages.map Message.id
      = (turnIds turns).map Nat.repr := by
    rw [hm]
    simpa [initialState] using turnMessages_ids turns
  obtain ⟨hchain, _⟩ := turnIds_chain turns 0 hclk
  have hpw : List.Pairwise (· < ·) (turnIds turns) := List.chain'_iff_pairwise.mp hchain
  refine ⟨hids, hpw, ?_⟩
  rw [hids]
  exact hpw.map Nat.repr
    (fun a b hab he => absurd (natRepr_injective he) (Nat.ne_of_lt hab))

/-- Two well-spaced turns used as the amended-claim witness. -/
def spacedTurns : List Turn :=
  [{ text := "hi", tSubmit := 0, outcome := .failure, tResolve := 0 },
   { text := "yo", tSubmit := 3, outcome := .failure, tResolve := 4 }]

/-- Claim C8 (amended), witness on two well-spaced turns. -/
theorem c8_ids_monotone_amended_witness :
    ((∀ t ∈ spacedTurns, jsTrim t.text ≠ "") ∧ clocksOk 0 spacedTurns = true)
    ∧ ((runTurns initialState spacedTurns).messages.map Message.id
          = (turnIds spacedTurns).map Nat.repr
      ∧ List.Pairwise (· < ·) (turnIds spacedTurns)
      ∧ ((runTurns initialState spacedTurns).messages.map Message.id).Nodup) :=
  ⟨⟨by decide, by decide⟩, c8_ids_monotone_amended spacedTurns (by decide) (by decide)⟩

end StudyBuddy
